import Mathlib

/-!
# vcam-realsense: the point cloud renderer

A shallow embedding of `src/Filters/PointCloudRenderer.cpp`.

Conventions of the embedding.

* A pointer into a block of memory is the function from element offsets to
  the element stored there. A block that the code writes to is a `Buf`: the
  cells together with the record of every offset stored to, oldest first.
* `unsigned int` arithmetic is reduced modulo `2 ^ 32` (`wrap32`). Signed
  `int` arithmetic has no defined result on overflow and is carried out in
  `Int` and `Nat`.
* `float` is a type parameter `F` with the comparison `flt` standing for the
  `<` of the machine, about which nothing is assumed.
* `assert` is the assertion of a build without `NDEBUG`: a failed assertion
  ends the call.
-/

set_option autoImplicit false

/-- One `BYTE` of the Windows headers. -/
abbrev BYTE := Fin 256

/-- Result of an `unsigned int` expression: the value modulo `2 ^ 32`. -/
def wrap32 (n : Nat) : Nat := n % 4294967296

/-- Conversion of an `int` to `unsigned int`. -/
def toUInt (z : Int) : Nat := (z % 4294967296).toNat

/-- Conversion of an `int` to `size_t` (64 bit). -/
def toSizeT (z : Int) : Nat := (z % 18446744073709551616).toNat

/-- A writable block of memory: its cells, and the offsets stored to so far. -/
structure Buf (α : Type) where
  cell : Nat → α
  log : List Nat

namespace Buf

variable {α : Type}

/-- A block freshly handed to the code, nothing stored yet. -/
def fresh (cell : Nat → α) : Buf α := { cell := cell, log := [] }

/-- The assignment `b[i] = v`. -/
def store (b : Buf α) (i : Nat) (v : α) : Buf α :=
  { cell := fun j => if j = i then v else b.cell j, log := b.log ++ [i] }

/-- The offsets stored to between two states of a block, oldest first. -/
def storesSince (before after : Buf α) : List Nat :=
  after.log.drop before.log.length

end Buf

/-- The loop `for (i = 0; i < n; i++) body`, for a body that leaves `i` alone:
the state after `n + 1` rounds is the body at `i = n` run on the state after
`n` rounds. -/
def forLoop {σ : Type} : Nat → (Nat → σ → σ) → σ → σ
  | 0, _, s => s
  | n + 1, body, s => body n (forLoop n body s)

/-- The call `memset(dst, value, count)`. -/
def memset (dst : Buf BYTE) (value : BYTE) (count : Nat) : Buf BYTE :=
  forLoop count (fun j b => b.store j value) dst

/-- The call `memcpy(dst, src, count)`. -/
def memcpy (dst : Buf BYTE) (src : Nat → BYTE) (count : Nat) : Buf BYTE :=
  forLoop count (fun j b => b.store j (src j)) dst

/-! ## The vertex loop of `RenderFrame` (lines 402 to 431) -/

/-- The two variables the vertex loop changes: the mapped vertex buffer `data`
and the counter `currPoint`. -/
structure VertexLoopState (F : Type) where
  data : Buf F
  currPoint : Nat

section VertexLoop

variable {F : Type} (flt : F → F → Bool)

/-- Body of the vertex loop at index `p` (lines 414 to 425). -/
def vertexLoopBody (m_ClippingDistanceZ : F) (pointsXyz texUvs : Nat → F) (p : Nat)
    (s : VertexLoopState F) : VertexLoopState F :=
  if flt (pointsXyz (wrap32 (3 * p + 2))) m_ClippingDistanceZ then
    { data :=
        ((((s.data.store (wrap32 (5 * s.currPoint)) (pointsXyz (wrap32 (3 * p)))).store
          (wrap32 (5 * s.currPoint + 1)) (pointsXyz (wrap32 (3 * p + 1)))).store
          (wrap32 (5 * s.currPoint + 2)) (pointsXyz (wrap32 (3 * p + 2)))).store
          (wrap32 (5 * s.currPoint + 3)) (texUvs (wrap32 (2 * p)))).store
          (wrap32 (5 * s.currPoint + 4)) (texUvs (wrap32 (2 * p + 1)))
      currPoint := wrap32 (s.currPoint + 1) }
  else s

/-- The vertex loop: `currPoint = 0`, then the body for `p = 0 .. pointsCount - 1`. -/
def vertexLoop (m_ClippingDistanceZ : F) (pointsCount : Nat) (pointsXyz texUvs : Nat → F)
    (data : Buf F) : VertexLoopState F :=
  forLoop pointsCount (vertexLoopBody flt m_ClippingDistanceZ pointsXyz texUvs)
    { data := data, currPoint := 0 }

end VertexLoop

/-- A vertex buffer of `pointsCount` vertices exists: `Init` creates the
buffer for `m_InputDepthWidth * m_InputDepthHeight` vertices of
`sizeof(VertexPositionTexUv) = 20` bytes and stores the byte count in the
`UINT` field `ByteWidth` (lines 189 to 195), so the count of bytes of
`pointsCount` vertices has to be a `UINT`. -/
def VertexBufferFits (pointsCount : Nat) : Prop := pointsCount * 20 < 4294967296

instance (pointsCount : Nat) : Decidable (VertexBufferFits pointsCount) := by
  unfold VertexBufferFits; infer_instance

/-! ## The colour upload of `RenderFrame` (lines 365 to 399) -/

/-- Line 376: `memset(mappedResource.pData, 255, (size_t)4 * pointsCount)`.
The count is a `size_t` product, exact for every `unsigned int`. -/
def fillOpaqueWhite (pData : Buf BYTE) (pointsCount : Nat) : Buf BYTE :=
  memset pData 255 (4 * pointsCount)

/-- Body of the IR loop at index `i` (lines 385 to 388). -/
def expandIntensityBody (colorFrame : Nat → BYTE) (i : Nat) (data : Buf BYTE) : Buf BYTE :=
  (((data.store (wrap32 (4 * i)) (colorFrame i)).store
    (wrap32 (4 * i + 1)) (colorFrame i)).store
    (wrap32 (4 * i + 2)) (colorFrame i)).store
    (wrap32 (4 * i + 3)) 255

/-- Lines 381 to 389: the IR frame, one Y8 value per pixel, copied to R, G and
B with A set to 255. -/
def expandIntensity (pData : Buf BYTE) (pointsCount : Nat) (colorFrame : Nat → BYTE) : Buf BYTE :=
  forLoop pointsCount (expandIntensityBody colorFrame) pData

/-- Line 394: `memcpy(mappedResource.pData, color_frame_data, color_frame_size)`,
the `int` size converted to `size_t`. -/
def copyRgba (pData : Buf BYTE) (color_frame_data : Nat → BYTE) (color_frame_size : Int) : Buf BYTE :=
  memcpy pData color_frame_data (toSizeT color_frame_size)

/-- Lines 373 to 395: the three way choice on `color_frame_size`. In the
second test the `int` is converted to `unsigned int` for the comparison with
`pointsCount`. -/
def uploadColorTexture (pData : Buf BYTE) (pointsCount : Nat) (color_frame_data : Nat → BYTE)
    (color_frame_size : Int) : Buf BYTE :=
  if color_frame_size = 0 then
    fillOpaqueWhite pData pointsCount
  else if toUInt color_frame_size = pointsCount then
    expandIntensity pData pointsCount color_frame_data
  else
    copyRgba pData color_frame_data color_frame_size

/-! ## `convert32bppToRGB` (lines 491 to 499) -/

/-- Body of the conversion loop at index `i` (lines 495 to 497). -/
def convertBody (pData : Nat → BYTE) (i : Nat) (frameBuffer : Buf BYTE) : Buf BYTE :=
  ((frameBuffer.store (3 * i) (pData (4 * i + 2))).store
    (3 * i + 1) (pData (4 * i + 1))).store
    (3 * i + 2) (pData (4 * i + 0))

/-- The function `convert32bppToRGB`: the loop `for (int i = 0; i < pixelCount; ++i)`. -/
def convert32bppToRGB (frameBuffer : Buf BYTE) (_frameSize : Int) (pData : Nat → BYTE)
    (pixelCount : Int) : Buf BYTE :=
  forLoop pixelCount.toNat (convertBody pData) frameBuffer

/-! ## The renderer object -/

/-- The seventeen pointer members that `UnInit` looks at. -/
inductive Resource where
  | device_ptr
  | device_context_ptr
  | target_ptr
  | depth_stencil_ptr
  | depth_stencil_state_ptr
  | depth_stencil_view_ptr
  | staging_ptr
  | render_target_view_ptr
  | vertex_shader_ptr
  | pixel_shader_ptr
  | input_layout_ptr
  | vertex_buffer_ptr
  | constant_buffer_ptr
  | color_tex_ptr
  | sampler_state_ptr
  | tex_view_ptr
  | m_BackgroundColor
  deriving DecidableEq, Repr

/-- The pointer members in the order of the lines of `UnInit` (341 to 357). -/
def Resource.unInitOrder : List Resource :=
  [.m_BackgroundColor, .tex_view_ptr, .depth_stencil_view_ptr, .depth_stencil_state_ptr,
   .depth_stencil_ptr, .sampler_state_ptr, .color_tex_ptr, .render_target_view_ptr,
   .input_layout_ptr, .constant_buffer_ptr, .vertex_shader_ptr, .pixel_shader_ptr,
   .vertex_buffer_ptr, .staging_ptr, .target_ptr, .device_context_ptr, .device_ptr]

/-- Every pointer member, in the order in which `Init` fills them. -/
def Resource.all : List Resource :=
  [.device_ptr, .device_context_ptr, .target_ptr, .depth_stencil_ptr, .depth_stencil_state_ptr,
   .depth_stencil_view_ptr, .staging_ptr, .render_target_view_ptr, .vertex_shader_ptr,
   .pixel_shader_ptr, .input_layout_ptr, .vertex_buffer_ptr, .constant_buffer_ptr,
   .color_tex_ptr, .sampler_state_ptr, .tex_view_ptr, .m_BackgroundColor]

/-- The members of `PointCloudRenderer` that the code under study reads or
writes. `nonNull res` says whether the pointer member `res` is non-null.
`acquired` and `released` record, oldest first, the objects created by `Init`
and the `Release()` and `delete` calls made by `UnInit`. -/
structure PointCloudRenderer (F : Type) where
  m_InputDepthWidth : Int
  m_InputDepthHeight : Int
  m_InputTexWidth : Int
  m_InputTexHeight : Int
  m_OutputWidth : Int
  m_OutputHeight : Int
  m_ClippingDistanceZ : F
  nonNull : Resource → Bool
  acquired : List Resource
  released : List Resource

namespace PointCloudRenderer

variable {F : Type}

/-- The `UINT` field `ByteWidth` of the vertex buffer that `Init` creates
(lines 189 to 195): `arrayElementCount * sizeof(VertexPositionTexUv)`, the
`int` count converted to `size_t`, multiplied by 20 and cut to 32 bits. -/
def vertexBufferByteWidth (this : PointCloudRenderer F) : Nat :=
  wrap32 (toSizeT (this.m_InputDepthWidth * this.m_InputDepthHeight) * 20 % 18446744073709551616)

/-- The number of vertices of 20 bytes that the vertex buffer holds. -/
def vertexBufferCapacity (this : PointCloudRenderer F) : Nat :=
  this.vertexBufferByteWidth / 20

/-- A creation call of `Init` followed by its `assert`: when the call
succeeds the pointer member is set, otherwise the assertion ends `Init`. -/
def create (succeeds : Resource → Bool) (res : Resource) (r : PointCloudRenderer F) :
    Option (PointCloudRenderer F) :=
  if succeeds res then
    some { r with
      nonNull := fun x => if x = res then true else r.nonNull x
      acquired := r.acquired ++ [res] }
  else none

/-- The assignment `m_BackgroundColor = new float[] { .. }` (lines 302 to 308). -/
def newBackgroundColor (r : PointCloudRenderer F) : PointCloudRenderer F :=
  { r with
    nonNull := fun x => if x = Resource.m_BackgroundColor then true else r.nonNull x
    acquired := r.acquired ++ [Resource.m_BackgroundColor] }

/-- The function `Init` (lines 28 to 337), as far as the members above are
concerned. `succeeds res` tells whether the Direct3D call creating `res`
succeeds; `this` is the object before the call. `D3D11CreateDevice` yields the
device and the device context, and the assertion after it wants both. -/
def Init (succeeds : Resource → Bool) (this : PointCloudRenderer F)
    (inputDepthWidth inputDepthHeight inputTexWidth inputTexHeight outputWidth outputHeight : Int)
    (clippingDistanceZ : F) : Option (PointCloudRenderer F) :=
  let r : PointCloudRenderer F :=
    { this with
      m_InputDepthWidth := inputDepthWidth
      m_InputDepthHeight := inputDepthHeight
      m_InputTexWidth := inputTexWidth
      m_InputTexHeight := inputTexHeight
      m_OutputWidth := outputWidth
      m_OutputHeight := outputHeight
      m_ClippingDistanceZ := clippingDistanceZ }
  match create succeeds .device_ptr r with
  | none => none
  | some r =>
  match create succeeds .device_context_ptr r with
  | none => none
  | some r =>
  match create succeeds .target_ptr r with
  | none => none
  | some r =>
  match create succeeds .depth_stencil_ptr r with
  | none => none
  | some r =>
  match create succeeds .depth_stencil_state_ptr r with
  | none => none
  | some r =>
  match create succeeds .depth_stencil_view_ptr r with
  | none => none
  | some r =>
  match create succeeds .staging_ptr r with
  | none => none
  | some r =>
  match create succeeds .render_target_view_ptr r with
  | none => none
  | some r =>
  match create succeeds .vertex_shader_ptr r with
  | none => none
  | some r =>
  match create succeeds .pixel_shader_ptr r with
  | none => none
  | some r =>
  match create succeeds .input_layout_ptr r with
  | none => none
  | some r =>
  match create succeeds .vertex_buffer_ptr r with
  | none => none
  | some r =>
  match create succeeds .constant_buffer_ptr r with
  | none => none
  | some r =>
  match create succeeds .color_tex_ptr r with
  | none => none
  | some r =>
  match create succeeds .sampler_state_ptr r with
  | none => none
  | some r =>
  match create succeeds .tex_view_ptr r with
  | none => none
  | some r =>
  some (newBackgroundColor r)

/-- One line of `UnInit`: `if (ptr) ptr->Release();` (or `delete ptr;`). The
pointer member itself is not assigned. -/
def releaseIfNonNull (res : Resource) (r : PointCloudRenderer F) : PointCloudRenderer F :=
  if r.nonNull res then { r with released := r.released ++ [res] } else r

/-- The function `UnInit` (lines 339 to 358). -/
def UnInit (this : PointCloudRenderer F) : PointCloudRenderer F :=
  this
    |> releaseIfNonNull .m_BackgroundColor
    |> releaseIfNonNull .tex_view_ptr
    |> releaseIfNonNull .depth_stencil_view_ptr
    |> releaseIfNonNull .depth_stencil_state_ptr
    |> releaseIfNonNull .depth_stencil_ptr
    |> releaseIfNonNull .sampler_state_ptr
    |> releaseIfNonNull .color_tex_ptr
    |> releaseIfNonNull .render_target_view_ptr
    |> releaseIfNonNull .input_layout_ptr
    |> releaseIfNonNull .constant_buffer_ptr
    |> releaseIfNonNull .vertex_shader_ptr
    |> releaseIfNonNull .pixel_shader_ptr
    |> releaseIfNonNull .vertex_buffer_ptr
    |> releaseIfNonNull .staging_ptr
    |> releaseIfNonNull .target_ptr
    |> releaseIfNonNull .device_context_ptr
    |> releaseIfNonNull .device_ptr

end PointCloudRenderer

/-! ## `RenderFrame` (lines 360 to 480) -/

/-- The assertions of `RenderFrame`: line 362, and the three after `Map`. -/
inductive AssertSite where
  | precondition
  | mapColorTex
  | mapVertexBuffer
  | mapStaging
  deriving DecidableEq, Repr

/-- What Direct3D does in one call of `RenderFrame`. `mapColorTex` and
`mapVertexBuffer` are the results of the two `Map` calls with
`D3D11_MAP_WRITE_DISCARD`: `none` when the call fails, else the memory behind
`pData`. `mapStaging tex vertices count` is the result of mapping the staging
texture for reading after the constant buffer update, the two clears,
`Draw(count, 0)`, `Flush` and `CopyResource`, given the bytes of the colour
texture and the floats of the vertex buffer. -/
structure Direct3D (F : Type) where
  mapColorTex : Option (Nat → BYTE)
  mapVertexBuffer : Option (Nat → F)
  mapStaging : (Nat → BYTE) → (Nat → F) → Nat → Option (Nat → BYTE)

/-- Memory at the moment an assertion of `RenderFrame` fails: `none` for a
block that was never mapped, and for the caller's buffer when it is `NULL`. -/
structure Aborted (F : Type) where
  site : AssertSite
  colorTex : Option (Buf BYTE)
  vertexBuffer : Option (Buf F)
  outputFrameBuffer : Option (Buf BYTE)

/-- Memory when `RenderFrame` returns, and the vertex count given to `Draw`. -/
structure Rendered (F : Type) where
  colorTex : Buf BYTE
  vertexBuffer : Buf F
  drawn : Nat
  outputFrameBuffer : Buf BYTE

namespace PointCloudRenderer

variable {F : Type} (flt : F → F → Bool)

/-- The function `RenderFrame`. A pointer argument tested against `NULL` is an
`Option`. In the assertion of line 362 the `int` product of the depth sizes is
converted to `unsigned int` for the comparison with `pointsCount`. -/
def RenderFrame (this : PointCloudRenderer F) (d3d : Direct3D F)
    (outputFrameBuffer : Option (Buf BYTE)) (outputFrameLength : Int) (pointsCount : Nat)
    (pointsXyz : Option (Nat → F)) (texUvs : Nat → F) (color_frame_data : Nat → BYTE)
    (color_frame_size : Int) : Except (Aborted F) (Rendered F) :=
  match outputFrameBuffer, pointsXyz with
  | some frame, some xyz =>
    if pointsCount = toUInt (this.m_InputDepthWidth * this.m_InputDepthHeight)
        ∧ outputFrameLength = this.m_OutputWidth * this.m_OutputHeight * 3 then
      match d3d.mapColorTex with
      | none => .error ⟨.mapColorTex, none, none, some frame⟩
      | some texData =>
        let tex := uploadColorTexture (Buf.fresh texData) pointsCount color_frame_data color_frame_size
        match d3d.mapVertexBuffer with
        | none => .error ⟨.mapVertexBuffer, some tex, none, some frame⟩
        | some vertexData =>
          let s := vertexLoop flt this.m_ClippingDistanceZ pointsCount xyz texUvs (Buf.fresh vertexData)
          match d3d.mapStaging tex.cell s.data.cell s.currPoint with
          | none => .error ⟨.mapStaging, some tex, some s.data, some frame⟩
          | some staged =>
            .ok { colorTex := tex
                  vertexBuffer := s.data
                  drawn := s.currPoint
                  outputFrameBuffer :=
                    convert32bppToRGB frame outputFrameLength staged
                      (this.m_OutputWidth * this.m_OutputHeight) }
    else .error ⟨.precondition, none, none, outputFrameBuffer⟩
  | _, _ => .error ⟨.precondition, none, none, outputFrameBuffer⟩

end PointCloudRenderer

/-! ## Reference notions of the specification -/

section Reference

variable {F : Type} (flt : F → F → Bool)

/-- The indices `p` in `0 .. pointsCount - 1`, in increasing order, whose depth
coordinate `pointsXyz[3p+2]` is strictly less than the clip distance. -/
def survivors (clipDistanceZ : F) (pointsCount : Nat) (pointsXyz : Nat → F) : List Nat :=
  (List.range pointsCount).filter fun p => flt (pointsXyz (3 * p + 2)) clipDistanceZ

/-- The five floats `(x_p, y_p, z_p, u_p, v_p)` of the point with index `p`. -/
def vertexOf (pointsXyz texUvs : Nat → F) (p : Nat) : F × F × F × F × F :=
  (pointsXyz (3 * p), pointsXyz (3 * p + 1), pointsXyz (3 * p + 2), texUvs (2 * p), texUvs (2 * p + 1))

/-- The five floats held by vertex slot `k` of a vertex buffer. -/
def vertexSlot (cell : Nat → F) (k : Nat) : F × F × F × F × F :=
  (cell (5 * k), cell (5 * k + 1), cell (5 * k + 2), cell (5 * k + 3), cell (5 * k + 4))

end Reference

/-! ## Concrete data on which the definitions are run -/

/-- Integers standing for floats, compared with `<`. -/
def intLt (a b : Int) : Bool := decide (a < b)

/-- Three points, of depths 5, 20 and 7. -/
def threePoints : Nat → Int := fun i => [0, 0, 5, 1, 1, 20, 2, 2, 7].getD i 0

/-- The texture coordinates of three points. -/
def threeUvs : Nat → Int := fun i => [50, 51, 52, 53, 54, 55].getD i 0

/-- A renderer object all of whose pointer members are null. -/
def nullRenderer : PointCloudRenderer Int :=
  { m_InputDepthWidth := 0
    m_InputDepthHeight := 0
    m_InputTexWidth := 0
    m_InputTexHeight := 0
    m_OutputWidth := 0
    m_OutputHeight := 0
    m_ClippingDistanceZ := 13
    nonNull := fun _ => false
    acquired := []
    released := [] }

/-- A renderer for 3 by 1 depth samples, a texture of 2 by 2 and an output of
2 by 1 pixels. -/
def sampleRenderer : PointCloudRenderer Int :=
  { nullRenderer with
    m_InputDepthWidth := 3
    m_InputDepthHeight := 1
    m_InputTexWidth := 2
    m_InputTexHeight := 2
    m_OutputWidth := 2
    m_OutputHeight := 1 }

/-- Every creation call of `Init` succeeds. -/
def allSucceed : Resource → Bool := fun _ => true

/-- Direct3D in a call where every `Map` succeeds: the colour texture is
mapped on bytes 7, the vertex buffer on zeros, and the staging texture holds
the two pixels `[10, 20, 30, 40]` and `[1, 2, 3, 4]`. -/
def sampleD3D : Direct3D Int :=
  { mapColorTex := some fun _ => 7
    mapVertexBuffer := some fun _ => 0
    mapStaging := fun _ _ _ => some fun i => [10, 20, 30, 40, 1, 2, 3, 4].getD i 0 }

/-! ## General facts about blocks and loops -/

theorem wrap32_of_lt {n : Nat} (h : n < 4294967296) : wrap32 n = n :=
  Nat.mod_eq_of_lt h

theorem Buf.store_cell_self {α : Type} (b : Buf α) (i : Nat) (v : α) :
    (b.store i v).cell i = v := by
  simp [Buf.store]

theorem Buf.store_cell_of_ne {α : Type} (b : Buf α) {i j : Nat} (v : α) (h : j ≠ i) :
    (b.store i v).cell j = b.cell j := by
  simp [Buf.store, h]

theorem Buf.store_log {α : Type} (b : Buf α) (i : Nat) (v : α) :
    (b.store i v).log = b.log ++ [i] := rfl

theorem forLoop_succ {σ : Type} (n : Nat) (body : Nat → σ → σ) (s : σ) :
    forLoop (n + 1) body s = body n (forLoop n body s) := rfl

/-! ## The vertex loop -/

section VertexLoopFacts

variable {F : Type} (flt : F → F → Bool)

theorem survivors_succ (clip : F) (n : Nat) (xyz : Nat → F) :
    survivors flt clip (n + 1) xyz
      = survivors flt clip n xyz ++ (if flt (xyz (3 * n + 2)) clip then [n] else []) := by
  unfold survivors
  rw [List.range_succ, List.filter_append]
  congr 1
  by_cases h : flt (xyz (3 * n + 2)) clip = true <;> simp [List.filter, h]

theorem survivors_length_le (clip : F) (n : Nat) (xyz : Nat → F) :
    (survivors flt clip n xyz).length ≤ n := by
  have h := List.length_filter_le (fun p => flt (xyz (3 * p + 2)) clip) (List.range n)
  simpa [survivors] using h

theorem survivors_pairwise (clip : F) (n : Nat) (xyz : Nat → F) :
    (survivors flt clip n xyz).Pairwise (fun a b => a < b) :=
  List.Pairwise.filter _ (List.pairwise_lt_range n)

theorem range_five_succ (c : Nat) :
    List.range (5 * (c + 1))
      = List.range (5 * c) ++ [5 * c, 5 * c + 1, 5 * c + 2, 5 * c + 3, 5 * c + 4] := by
  have h : 5 * (c + 1) = 5 * c + 1 + 1 + 1 + 1 + 1 := by ring
  rw [h]
  simp [List.range_succ]

/-- State of the vertex loop after `n` rounds. -/
theorem vertexLoop_invariant (clip : F) (pointsCount : Nat) (xyz uv : Nat → F) (data : Buf F)
    (hfit : VertexBufferFits pointsCount) (n : Nat) (hn : n ≤ pointsCount) :
    (forLoop n (vertexLoopBody flt clip xyz uv) ⟨data, 0⟩).currPoint
        = (survivors flt clip n xyz).length
    ∧ (List.range (forLoop n (vertexLoopBody flt clip xyz uv) ⟨data, 0⟩).currPoint).map
          (vertexSlot (forLoop n (vertexLoopBody flt clip xyz uv) ⟨data, 0⟩).data.cell)
        = (survivors flt clip n xyz).map (vertexOf xyz uv)
    ∧ (∀ j, 5 * (forLoop n (vertexLoopBody flt clip xyz uv) ⟨data, 0⟩).currPoint ≤ j →
          (forLoop n (vertexLoopBody flt clip xyz uv) ⟨data, 0⟩).data.cell j = data.cell j)
    ∧ (forLoop n (vertexLoopBody flt clip xyz uv) ⟨data, 0⟩).data.log
        = data.log ++ List.range (5 * (forLoop n (vertexLoopBody flt clip xyz uv) ⟨data, 0⟩).currPoint) := by
  induction n with
  | zero => simp [forLoop, survivors]
  | succ n ih =>
    obtain ⟨hc, hslots, hframe, hlog⟩ := ih (Nat.le_of_succ_le hn)
    have hlen := survivors_length_le flt clip n xyz
    rw [forLoop_succ, survivors_succ]
    generalize forLoop n (vertexLoopBody flt clip xyz uv) ⟨data, 0⟩ = s at hc hslots hframe hlog ⊢
    obtain ⟨sdata, c⟩ := s
    simp only at hc hslots hframe hlog
    unfold VertexBufferFits at hfit
    by_cases ht : flt (xyz (3 * n + 2)) clip = true
    · have w1 : wrap32 (3 * n + 2) = 3 * n + 2 := wrap32_of_lt (by omega)
      have w2 : wrap32 (3 * n) = 3 * n := wrap32_of_lt (by omega)
      have w3 : wrap32 (3 * n + 1) = 3 * n + 1 := wrap32_of_lt (by omega)
      have w4 : wrap32 (2 * n) = 2 * n := wrap32_of_lt (by omega)
      have w5 : wrap32 (2 * n + 1) = 2 * n + 1 := wrap32_of_lt (by omega)
      have v0 : wrap32 (5 * c) = 5 * c := wrap32_of_lt (by omega)
      have v1 : wrap32 (5 * c + 1) = 5 * c + 1 := wrap32_of_lt (by omega)
      have v2 : wrap32 (5 * c + 2) = 5 * c + 2 := wrap32_of_lt (by omega)
      have v3 : wrap32 (5 * c + 3) = 5 * c + 3 := wrap32_of_lt (by omega)
      have v4 : wrap32 (5 * c + 4) = 5 * c + 4 := wrap32_of_lt (by omega)
      have v5 : wrap32 (c + 1) = c + 1 := wrap32_of_lt (by omega)
      simp only [vertexLoopBody, w1, w2, w3, w4, w5, v0, v1, v2, v3, v4, v5, ht, if_true]
      have hother : ∀ j, (j < 5 * c ∨ 5 * (c + 1) ≤ j) →
          (((((sdata.store (5 * c) (xyz (3 * n))).store (5 * c + 1) (xyz (3 * n + 1))).store
            (5 * c + 2) (xyz (3 * n + 2))).store (5 * c + 3) (uv (2 * n))).store
            (5 * c + 4) (uv (2 * n + 1))).cell j = sdata.cell j := by
        intro j hj
        simp only [Buf.store]
        rw [if_neg (by omega), if_neg (by omega), if_neg (by omega), if_neg (by omega),
          if_neg (by omega)]
      refine ⟨by simp [hc], ?_, ?_, ?_⟩
      · rw [List.range_succ, List.map_append, List.map_append, ← hslots]
        congr 1
        · apply List.map_congr_left
          intro k hk
          have hk' : k < c := List.mem_range.mp hk
          simp only [vertexSlot]
          rw [hother _ (Or.inl (by omega)), hother _ (Or.inl (by omega)),
            hother _ (Or.inl (by omega)), hother _ (Or.inl (by omega)),
            hother _ (Or.inl (by omega))]
        · simp [vertexSlot, vertexOf, Buf.store]
      · intro j hj
        rw [hother j (Or.inr hj)]
        exact hframe j (by omega)
      · simp only [Buf.store, hlog, range_five_succ]
        simp
    · simp only [vertexLoopBody, ht]
      have w1 : wrap32 (3 * n + 2) = 3 * n + 2 := wrap32_of_lt (by omega)
      simp only [w1, ht]
      simp
      exact ⟨hc, hslots, hframe, hlog⟩

end VertexLoopFacts

/-! ## Loops that store once or several times per round -/

theorem count_range_of_lt {j n : Nat} (h : j < n) : (List.range n).count j = 1 :=
  List.count_eq_one_of_mem (List.nodup_range n) (List.mem_range.mpr h)

theorem count_range_of_le {j n : Nat} (h : n ≤ j) : (List.range n).count j = 0 :=
  List.count_eq_zero_of_not_mem (by simp [List.mem_range]; omega)

theorem Buf.storesSince_append {α : Type} (before after : Buf α) (l : List Nat)
    (h : after.log = before.log ++ l) : Buf.storesSince before after = l := by
  simp [Buf.storesSince, h]

/-- State after `n` rounds of a loop whose round `j` is `dst[j] = f j`. -/
theorem storeLoop_invariant (f : Nat → BYTE) (dst : Buf BYTE) (n : Nat) :
    (∀ j, j < n → (forLoop n (fun j b => b.store j (f j)) dst).cell j = f j)
    ∧ (∀ j, n ≤ j → (forLoop n (fun j b => b.store j (f j)) dst).cell j = dst.cell j)
    ∧ (forLoop n (fun j b => b.store j (f j)) dst).log = dst.log ++ List.range n := by
  induction n with
  | zero => simp [forLoop]
  | succ n ih =>
    obtain ⟨hlow, hhigh, hlog⟩ := ih
    rw [forLoop_succ]
    refine ⟨?_, ?_, ?_⟩
    · intro j hj
      by_cases hjn : j = n
      · subst hjn; simp [Buf.store]
      · rw [Buf.store_cell_of_ne _ _ hjn]; exact hlow j (by omega)
    · intro j hj
      rw [Buf.store_cell_of_ne _ _ (by omega)]; exact hhigh j (by omega)
    · rw [Buf.store_log, hlog, List.range_succ, List.append_assoc]

theorem range_four_succ (c : Nat) :
    List.range (4 * (c + 1)) = List.range (4 * c) ++ [4 * c, 4 * c + 1, 4 * c + 2, 4 * c + 3] := by
  have h : 4 * (c + 1) = 4 * c + 1 + 1 + 1 + 1 := by ring
  rw [h]
  simp [List.range_succ]

theorem range_three_succ (c : Nat) :
    List.range (3 * (c + 1)) = List.range (3 * c) ++ [3 * c, 3 * c + 1, 3 * c + 2] := by
  have h : 3 * (c + 1) = 3 * c + 1 + 1 + 1 := by ring
  rw [h]
  simp [List.range_succ]

/-- State of the IR loop after `n` rounds. -/
theorem expandIntensity_invariant (colorFrame : Nat → BYTE) (pData : Buf BYTE) (n : Nat)
    (hn : 4 * n ≤ 4294967296) :
    (∀ i, i < n →
        (forLoop n (expandIntensityBody colorFrame) pData).cell (4 * i) = colorFrame i
        ∧ (forLoop n (expandIntensityBody colorFrame) pData).cell (4 * i + 1) = colorFrame i
        ∧ (forLoop n (expandIntensityBody colorFrame) pData).cell (4 * i + 2) = colorFrame i
        ∧ (forLoop n (expandIntensityBody colorFrame) pData).cell (4 * i + 3) = 255)
    ∧ (∀ j, 4 * n ≤ j → (forLoop n (expandIntensityBody colorFrame) pData).cell j = pData.cell j)
    ∧ (forLoop n (expandIntensityBody colorFrame) pData).log = pData.log ++ List.range (4 * n) := by
  induction n with
  | zero => simp [forLoop]
  | succ n ih =>
    obtain ⟨hlow, hhigh, hlog⟩ := ih (by omega)
    rw [forLoop_succ]
    generalize forLoop n (expandIntensityBody colorFrame) pData = b at hlow hhigh hlog ⊢
    have w0 : wrap32 (4 * n) = 4 * n := wrap32_of_lt (by omega)
    have w1 : wrap32 (4 * n + 1) = 4 * n + 1 := wrap32_of_lt (by omega)
    have w2 : wrap32 (4 * n + 2) = 4 * n + 2 := wrap32_of_lt (by omega)
    have w3 : wrap32 (4 * n + 3) = 4 * n + 3 := wrap32_of_lt (by omega)
    simp only [expandIntensityBody, w0, w1, w2, w3]
    have hother : ∀ j, (j < 4 * n ∨ 4 * (n + 1) ≤ j) →
        ((((b.store (4 * n) (colorFrame n)).store (4 * n + 1) (colorFrame n)).store
          (4 * n + 2) (colorFrame n)).store (4 * n + 3) 255).cell j = b.cell j := by
      intro j hj
      simp only [Buf.store]
      rw [if_neg (by omega), if_neg (by omega), if_neg (by omega), if_neg (by omega)]
    refine ⟨?_, ?_, ?_⟩
    · intro i hi
      by_cases hin : i = n
      · subst hin; simp [Buf.store]
      · have hi' : i < n := by omega
        rw [hother _ (Or.inl (by omega)), hother _ (Or.inl (by omega)),
          hother _ (Or.inl (by omega)), hother _ (Or.inl (by omega))]
        exact hlow i hi'
    · intro j hj
      rw [hother j (Or.inr hj)]; exact hhigh j (by omega)
    · simp only [Buf.store, hlog, range_four_succ]
      simp

/-- State of the conversion loop after `n` rounds. -/
theorem convert_invariant (pData : Nat → BYTE) (frameBuffer : Buf BYTE) (n : Nat) :
    (∀ i, i < n →
        (forLoop n (convertBody pData) frameBuffer).cell (3 * i) = pData (4 * i + 2)
        ∧ (forLoop n (convertBody pData) frameBuffer).cell (3 * i + 1) = pData (4 * i + 1)
        ∧ (forLoop n (convertBody pData) frameBuffer).cell (3 * i + 2) = pData (4 * i))
    ∧ (∀ j, 3 * n ≤ j → (forLoop n (convertBody pData) frameBuffer).cell j = frameBuffer.cell j)
    ∧ (forLoop n (convertBody pData) frameBuffer).log = frameBuffer.log ++ List.range (3 * n) := by
  induction n with
  | zero => simp [forLoop]
  | succ n ih =>
    obtain ⟨hlow, hhigh, hlog⟩ := ih
    rw [forLoop_succ]
    generalize forLoop n (convertBody pData) frameBuffer = b at hlow hhigh hlog ⊢
    simp only [convertBody, Nat.add_zero]
    have hother : ∀ j, (j < 3 * n ∨ 3 * (n + 1) ≤ j) →
        (((b.store (3 * n) (pData (4 * n + 2))).store (3 * n + 1) (pData (4 * n + 1))).store
          (3 * n + 2) (pData (4 * n))).cell j = b.cell j := by
      intro j hj
      simp only [Buf.store]
      rw [if_neg (by omega), if_neg (by omega), if_neg (by omega)]
    refine ⟨?_, ?_, ?_⟩
    · intro i hi
      by_cases hin : i = n
      · subst hin; simp [Buf.store]
      · have hi' : i < n := by omega
        rw [hother _ (Or.inl (by omega)), hother _ (Or.inl (by omega)),
          hother _ (Or.inl (by omega))]
        exact hlow i hi'
    · intro j hj
      rw [hother j (Or.inr hj)]; exact hhigh j (by omega)
    · simp only [Buf.store, hlog, range_three_succ]
      simp

/-! ## `RenderFrame`: when it returns, and what it returns -/

section RenderFrameFacts

variable {F : Type} (flt : F → F → Bool)

/-- With the assertion of line 362 satisfied and the three `Map` calls
successful, `RenderFrame` returns. -/
theorem RenderFrame_eq_ok (this : PointCloudRenderer F) (d3d : Direct3D F) (frame : Buf BYTE)
    (outputFrameLength : Int) (pointsCount : Nat) (xyz texUvs : Nat → F)
    (color_frame_data : Nat → BYTE) (color_frame_size : Int)
    (texData : Nat → BYTE) (vertexData : Nat → F) (staged : Nat → BYTE)
    (hcount : pointsCount = toUInt (this.m_InputDepthWidth * this.m_InputDepthHeight))
    (hlen : outputFrameLength = this.m_OutputWidth * this.m_OutputHeight * 3)
    (htex : d3d.mapColorTex = some texData) (hvb : d3d.mapVertexBuffer = some vertexData)
    (hst : d3d.mapStaging
        (uploadColorTexture (Buf.fresh texData) pointsCount color_frame_data color_frame_size).cell
        (vertexLoop flt this.m_ClippingDistanceZ pointsCount xyz texUvs (Buf.fresh vertexData)).data.cell
        (vertexLoop flt this.m_ClippingDistanceZ pointsCount xyz texUvs (Buf.fresh vertexData)).currPoint
          = some staged) :
    this.RenderFrame flt d3d (some frame) outputFrameLength pointsCount (some xyz) texUvs
        color_frame_data color_frame_size
      = .ok
        { colorTex :=
            uploadColorTexture (Buf.fresh texData) pointsCount color_frame_data color_frame_size
          vertexBuffer :=
            (vertexLoop flt this.m_ClippingDistanceZ pointsCount xyz texUvs (Buf.fresh vertexData)).data
          drawn :=
            (vertexLoop flt this.m_ClippingDistanceZ pointsCount xyz texUvs (Buf.fresh vertexData)).currPoint
          outputFrameBuffer :=
            convert32bppToRGB frame outputFrameLength staged
              (this.m_OutputWidth * this.m_OutputHeight) } := by
  simp only [PointCloudRenderer.RenderFrame, htex, hvb, hst]
  rw [if_pos ⟨hcount, hlen⟩]

/-- Whenever `RenderFrame` returns, the assertion of line 362 held, the three
`Map` calls succeeded, and the result is the one computed from them. -/
theorem RenderFrame_ok_inv (this : PointCloudRenderer F) (d3d : Direct3D F)
    (outputFrameBuffer : Option (Buf BYTE)) (outputFrameLength : Int) (pointsCount : Nat)
    (pointsXyz : Option (Nat → F)) (texUvs : Nat → F)
    (color_frame_data : Nat → BYTE) (color_frame_size : Int) (res : Rendered F)
    (hres : this.RenderFrame flt d3d outputFrameBuffer outputFrameLength pointsCount pointsXyz
        texUvs color_frame_data color_frame_size = .ok res) :
    ∃ frame xyz texData vertexData staged,
      outputFrameBuffer = some frame ∧ pointsXyz = some xyz
      ∧ pointsCount = toUInt (this.m_InputDepthWidth * this.m_InputDepthHeight)
      ∧ outputFrameLength = this.m_OutputWidth * this.m_OutputHeight * 3
      ∧ d3d.mapColorTex = some texData ∧ d3d.mapVertexBuffer = some vertexData
      ∧ d3d.mapStaging res.colorTex.cell res.vertexBuffer.cell res.drawn = some staged
      ∧ res.colorTex
          = uploadColorTexture (Buf.fresh texData) pointsCount color_frame_data color_frame_size
      ∧ res.vertexBuffer
          = (vertexLoop flt this.m_ClippingDistanceZ pointsCount xyz texUvs (Buf.fresh vertexData)).data
      ∧ res.drawn
          = (vertexLoop flt this.m_ClippingDistanceZ pointsCount xyz texUvs (Buf.fresh vertexData)).currPoint
      ∧ res.outputFrameBuffer
          = convert32bppToRGB frame outputFrameLength staged
              (this.m_OutputWidth * this.m_OutputHeight) := by
  cases outputFrameBuffer with
  | none => simp [PointCloudRenderer.RenderFrame] at hres
  | some frame =>
    cases pointsXyz with
    | none => simp [PointCloudRenderer.RenderFrame] at hres
    | some xyz =>
      by_cases hpre : pointsCount = toUInt (this.m_InputDepthWidth * this.m_InputDepthHeight)
          ∧ outputFrameLength = this.m_OutputWidth * this.m_OutputHeight * 3
      · cases htex : d3d.mapColorTex with
        | none => simp [PointCloudRenderer.RenderFrame, htex, hpre] at hres
        | some texData =>
          cases hvb : d3d.mapVertexBuffer with
          | none => simp [PointCloudRenderer.RenderFrame, htex, hvb, hpre] at hres
          | some vertexData =>
            cases hst : d3d.mapStaging
              (uploadColorTexture (Buf.fresh texData) pointsCount color_frame_data color_frame_size).cell
              (vertexLoop flt this.m_ClippingDistanceZ pointsCount xyz texUvs (Buf.fresh vertexData)).data.cell
              (vertexLoop flt this.m_ClippingDistanceZ pointsCount xyz texUvs (Buf.fresh vertexData)).currPoint with
            | none =>
              simp only [PointCloudRenderer.RenderFrame, htex, hvb, hst] at hres
              rw [if_pos hpre] at hres
              cases hres
            | some staged =>
              rw [RenderFrame_eq_ok flt this d3d frame outputFrameLength pointsCount xyz texUvs
                color_frame_data color_frame_size texData vertexData staged hpre.1 hpre.2 htex hvb
                hst] at hres
              cases hres
              exact ⟨frame, xyz, texData, vertexData, staged, rfl, rfl, hpre.1, hpre.2, rfl, rfl,
                hst, rfl, rfl, rfl, rfl⟩
      · simp only [PointCloudRenderer.RenderFrame] at hres
        rw [if_neg hpre] at hres
        cases hres

end RenderFrameFacts

/-! ## The claims -/

section Claims

variable {F : Type} (flt : F → F → Bool)

/-- C1: for `pointsCount` vertices that a vertex buffer can hold, the counter
`currPoint` left by the vertex loop is exactly the number of indices
`p < pointsCount` whose depth `pointsXyz[3p+2]` is strictly less than the clip
distance, and it is at most `pointsCount`; in every `RenderFrame` call that
returns, the count passed to `Draw` is that number, and `pointsCount` is the
capacity of the vertex buffer `Init` created. -/
theorem vertexLoop_currPoint_eq_count (clip : F) (pointsCount : Nat)
    (pointsXyz texUvs : Nat → F) (data : Buf F) (hfit : VertexBufferFits pointsCount) :
    (vertexLoop flt clip pointsCount pointsXyz texUvs data).currPoint
        = (survivors flt clip pointsCount pointsXyz).length
    ∧ (vertexLoop flt clip pointsCount pointsXyz texUvs data).currPoint ≤ pointsCount
    ∧ ∀ (this : PointCloudRenderer F) (d3d : Direct3D F) (frame : Option (Buf BYTE))
        (outputFrameLength : Int) (color_frame_data : Nat → BYTE) (color_frame_size : Int)
        (res : Rendered F),
        this.RenderFrame flt d3d frame outputFrameLength pointsCount (some pointsXyz) texUvs
            color_frame_data color_frame_size = .ok res →
        res.drawn = (survivors flt this.m_ClippingDistanceZ pointsCount pointsXyz).length
        ∧ res.drawn ≤ pointsCount
        ∧ pointsCount = this.vertexBufferCapacity := by
  have key : ∀ (c : F) (d : Buf F),
      (vertexLoop flt c pointsCount pointsXyz texUvs d).currPoint
        = (survivors flt c pointsCount pointsXyz).length := fun c d =>
    (vertexLoop_invariant flt c pointsCount pointsXyz texUvs d hfit pointsCount le_rfl).1
  have hle : ∀ c : F, (survivors flt c pointsCount pointsXyz).length ≤ pointsCount := fun c =>
    survivors_length_le flt c pointsCount pointsXyz
  refine ⟨key clip data, (key clip data).trans_le (hle clip), ?_⟩
  intro this d3d frame len cfd cfs res hres
  obtain ⟨_, xyz, _, vertexData, _, _, hxyz, hcount, _, _, _, _, _, _, hdrawn, _⟩ :=
    RenderFrame_ok_inv flt this d3d frame len pointsCount (some pointsXyz) texUvs cfd cfs res hres
  cases hxyz
  rw [hdrawn, key]
  refine ⟨rfl, hle _, ?_⟩
  unfold VertexBufferFits at hfit
  unfold PointCloudRenderer.vertexBufferCapacity PointCloudRenderer.vertexBufferByteWidth wrap32
    toSizeT
  unfold toUInt at hcount
  omega

/-- A run of C1: three points of depths 5, 20 and 7 against the clip
distance 13 give the count 2, also as the vertex count of a whole `RenderFrame`
call. -/
theorem vertexLoop_currPoint_eq_count_witness :
    VertexBufferFits 3
    ∧ (vertexLoop intLt 13 3 threePoints threeUvs (Buf.fresh fun _ => 0)).currPoint = 2
    ∧ ((PointCloudRenderer.RenderFrame intLt
          sampleRenderer
          sampleD3D (some (Buf.fresh fun _ => 0)) 6 3 (some threePoints) threeUvs
          (fun _ => 0) 0).toOption.map fun res => res.drawn) = some 2 :=
  ⟨by decide,
   (vertexLoop_currPoint_eq_count intLt 13 3 threePoints threeUvs (Buf.fresh fun _ => 0)
      (by decide)).1.trans (by decide),
   by decide⟩

/-- C2: after the vertex loop on a vertex buffer that holds `pointsCount`
vertices, the first `currPoint` vertex slots are, slot for slot, the five
floats `(x_p, y_p, z_p, u_p, v_p)` of the indices `p < pointsCount` with depth
strictly below the clip distance, taken in strictly increasing order; the loop
stores to the offsets `0 .. 5 * currPoint - 1` in that order and to no other,
so every slot at or beyond `currPoint` keeps its content. -/
theorem vertexLoop_compacts_in_order (clip : F) (pointsCount : Nat)
    (pointsXyz texUvs : Nat → F) (data : Buf F) (hfit : VertexBufferFits pointsCount) :
    (List.range (vertexLoop flt clip pointsCount pointsXyz texUvs data).currPoint).map
        (vertexSlot (vertexLoop flt clip pointsCount pointsXyz texUvs data).data.cell)
      = (survivors flt clip pointsCount pointsXyz).map (vertexOf pointsXyz texUvs)
    ∧ (survivors flt clip pointsCount pointsXyz).Pairwise (fun a b => a < b)
    ∧ Buf.storesSince data (vertexLoop flt clip pointsCount pointsXyz texUvs data).data
      = List.range (5 * (vertexLoop flt clip pointsCount pointsXyz texUvs data).currPoint)
    ∧ ∀ j, 5 * (vertexLoop flt clip pointsCount pointsXyz texUvs data).currPoint ≤ j →
        (vertexLoop flt clip pointsCount pointsXyz texUvs data).data.cell j = data.cell j
        ∧ j ∉ Buf.storesSince data (vertexLoop flt clip pointsCount pointsXyz texUvs data).data := by
  obtain ⟨_, hslots, hframe, hlog⟩ :=
    vertexLoop_invariant flt clip pointsCount pointsXyz texUvs data hfit pointsCount le_rfl
  have hsince := Buf.storesSince_append data _ _ hlog
  refine ⟨hslots, survivors_pairwise flt clip pointsCount pointsXyz, hsince, ?_⟩
  intro j hj
  refine ⟨hframe j hj, ?_⟩
  unfold vertexLoop
  rw [hsince, List.mem_range]
  unfold vertexLoop at hj
  omega

/-- A run of C2: of three points of depths 5, 20 and 7 the first and the
third are kept, in slots 0 and 1, and slot 2 is left as it was. -/
theorem vertexLoop_compacts_in_order_witness :
    VertexBufferFits 3
    ∧ (List.range 2).map
        (vertexSlot (vertexLoop intLt 13 3 threePoints threeUvs (Buf.fresh fun _ => 99)).data.cell)
      = [(0, 0, 5, 50, 51), (2, 2, 7, 54, 55)]
    ∧ vertexSlot (vertexLoop intLt 13 3 threePoints threeUvs (Buf.fresh fun _ => 99)).data.cell 2
      = (99, 99, 99, 99, 99) :=
  ⟨by decide,
   (show (vertexLoop intLt 13 3 threePoints threeUvs (Buf.fresh fun _ => 99)).currPoint = 2 by
      decide) ▸
     (vertexLoop_compacts_in_order intLt 13 3 threePoints threeUvs (Buf.fresh fun _ => 99)
       (by decide)).1.trans (by decide),
   by decide⟩

end Claims

/-- C3: for every pixel index `i < pixelCount`, `convert32bppToRGB` leaves in
output bytes `3i`, `3i+1`, `3i+2` the input bytes `4i+2`, `4i+1`, `4i`; an
input pixel `[10, 20, 30, 40]` at index `i` gives the output bytes
`[30, 20, 10]` at position `3i`. -/
theorem convert32bppToRGB_swaps_channels (frameBuffer : Buf BYTE) (frameSize : Int)
    (pData : Nat → BYTE) (pixelCount : Int) (i : Nat) (hi : (i : Int) < pixelCount) :
    ((convert32bppToRGB frameBuffer frameSize pData pixelCount).cell (3 * i) = pData (4 * i + 2)
      ∧ (convert32bppToRGB frameBuffer frameSize pData pixelCount).cell (3 * i + 1) = pData (4 * i + 1)
      ∧ (convert32bppToRGB frameBuffer frameSize pData pixelCount).cell (3 * i + 2) = pData (4 * i))
    ∧ (pData (4 * i) = 10 → pData (4 * i + 1) = 20 → pData (4 * i + 2) = 30 →
        pData (4 * i + 3) = 40 →
        (convert32bppToRGB frameBuffer frameSize pData pixelCount).cell (3 * i) = 30
        ∧ (convert32bppToRGB frameBuffer frameSize pData pixelCount).cell (3 * i + 1) = 20
        ∧ (convert32bppToRGB frameBuffer frameSize pData pixelCount).cell (3 * i + 2) = 10) := by
  have h := (convert_invariant pData frameBuffer pixelCount.toNat).1 i (by omega)
  refine ⟨h, ?_⟩
  intro h0 h1 h2 _
  unfold convert32bppToRGB
  rw [h.1, h.2.1, h.2.2, h0, h1, h2]
  exact ⟨rfl, rfl, rfl⟩

/-- A run of C3: two pixels `[10, 20, 30, 40]` and `[1, 2, 3, 4]`, the second
one read at index 1. -/
theorem convert32bppToRGB_swaps_channels_witness :
    ((1 : Nat) : Int) < 2
    ∧ (convert32bppToRGB (Buf.fresh fun _ => 0) 6
        (fun i => [10, 20, 30, 40, 1, 2, 3, 4].getD i 0) 2).cell (3 * 1) = 3
    ∧ (List.range 6).map (convert32bppToRGB (Buf.fresh fun _ => 0) 6
        (fun i => [10, 20, 30, 40, 1, 2, 3, 4].getD i 0) 2).cell = [30, 20, 10, 3, 2, 1] :=
  ⟨by decide,
   (convert32bppToRGB_swaps_channels (Buf.fresh fun _ => 0) 6
      (fun i => [10, 20, 30, 40, 1, 2, 3, 4].getD i 0) 2 1 (by decide)).1.1.trans (by decide),
   by decide⟩

/-- The byte of a 4 byte per pixel surface that `convert32bppToRGB` puts at
offset `j` of the output. -/
theorem convert32bppToRGB_cell (frameBuffer : Buf BYTE) (frameSize : Int) (pData : Nat → BYTE)
    (pixelCount : Int) (j : Nat) (hj : (j : Int) < 3 * pixelCount) :
    (convert32bppToRGB frameBuffer frameSize pData pixelCount).cell j
      = pData (4 * (j / 3) + (2 - j % 3)) := by
  have h := (convert_invariant pData frameBuffer pixelCount.toNat).1 (j / 3) (by omega)
  unfold convert32bppToRGB
  have hcases : j % 3 = 0 ∨ j % 3 = 1 ∨ j % 3 = 2 := by omega
  rcases hcases with h0 | h1 | h2
  · have e1 : j = 3 * (j / 3) := by omega
    have e2 : 4 * (j / 3) + (2 - j % 3) = 4 * (j / 3) + 2 := by omega
    rw [e2, ← h.1]; congr 1
  · have e1 : j = 3 * (j / 3) + 1 := by omega
    have e2 : 4 * (j / 3) + (2 - j % 3) = 4 * (j / 3) + 1 := by omega
    rw [e2, ← h.2.1]; congr 1
  · have e1 : j = 3 * (j / 3) + 2 := by omega
    have e2 : 4 * (j / 3) + (2 - j % 3) = 4 * (j / 3) := by omega
    rw [e2, ← h.2.2]; congr 1

/-- The stores of `convert32bppToRGB`: offsets `0 .. 3 * pixelCount - 1`. -/
theorem convert32bppToRGB_stores (frameBuffer : Buf BYTE) (frameSize : Int) (pData : Nat → BYTE)
    (pixelCount : Int) :
    Buf.storesSince frameBuffer (convert32bppToRGB frameBuffer frameSize pData pixelCount)
      = List.range (3 * pixelCount.toNat) :=
  Buf.storesSince_append _ _ _ (convert_invariant pData frameBuffer pixelCount.toNat).2.2

section Claims

variable {F : Type} (flt : F → F → Bool)

/-- C4: in a `RenderFrame` call that passes the assertion of line 362 and whose
`Map` calls succeed, the conversion run with `pixelCount = m_OutputWidth *
m_OutputHeight` stores exactly once to every offset `j < outputFrameLength` of
the output buffer and to no offset at or beyond `3 * pixelCount`; each byte
below `outputFrameLength` is a byte of the staging surface, whatever the buffer
held before, and the `frameSize` argument does not enter the result. -/
theorem RenderFrame_overwrites_output (this : PointCloudRenderer F) (d3d : Direct3D F)
    (frame : Buf BYTE) (outputFrameLength : Int) (pointsCount : Nat) (xyz texUvs : Nat → F)
    (color_frame_data : Nat → BYTE) (color_frame_size : Int)
    (hcount : pointsCount = toUInt (this.m_InputDepthWidth * this.m_InputDepthHeight))
    (hlen : outputFrameLength = this.m_OutputWidth * this.m_OutputHeight * 3)
    (htex : d3d.mapColorTex ≠ none) (hvb : d3d.mapVertexBuffer ≠ none)
    (hst : ∀ tex vertices count, d3d.mapStaging tex vertices count ≠ none) :
    ∃ res staged,
      this.RenderFrame flt d3d (some frame) outputFrameLength pointsCount (some xyz) texUvs
          color_frame_data color_frame_size = .ok res
      ∧ d3d.mapStaging res.colorTex.cell res.vertexBuffer.cell res.drawn = some staged
      ∧ (∀ j : Nat, (j : Int) < outputFrameLength →
          (Buf.storesSince frame res.outputFrameBuffer).count j = 1
          ∧ res.outputFrameBuffer.cell j = staged (4 * (j / 3) + (2 - j % 3)))
      ∧ (∀ j : Nat, 3 * (this.m_OutputWidth * this.m_OutputHeight) ≤ (j : Int) →
          (Buf.storesSince frame res.outputFrameBuffer).count j = 0
          ∧ res.outputFrameBuffer.cell j = frame.cell j)
      ∧ (∀ (before : Buf BYTE) (j : Nat), (j : Int) < outputFrameLength →
          (convert32bppToRGB before outputFrameLength staged
              (this.m_OutputWidth * this.m_OutputHeight)).cell j
            = res.outputFrameBuffer.cell j)
      ∧ (∀ frameSize : Int,
          convert32bppToRGB frame frameSize staged (this.m_OutputWidth * this.m_OutputHeight)
            = res.outputFrameBuffer) := by
  obtain ⟨texData, htex⟩ := Option.ne_none_iff_exists'.mp htex
  obtain ⟨vertexData, hvb⟩ := Option.ne_none_iff_exists'.mp hvb
  obtain ⟨staged, hst⟩ := Option.ne_none_iff_exists'.mp (hst
    (uploadColorTexture (Buf.fresh texData) pointsCount color_frame_data color_frame_size).cell
    (vertexLoop flt this.m_ClippingDistanceZ pointsCount xyz texUvs (Buf.fresh vertexData)).data.cell
    (vertexLoop flt this.m_ClippingDistanceZ pointsCount xyz texUvs (Buf.fresh vertexData)).currPoint)
  refine ⟨_, staged, RenderFrame_eq_ok flt this d3d frame outputFrameLength pointsCount xyz texUvs
    color_frame_data color_frame_size texData vertexData staged hcount hlen htex hvb hst,
    hst, ?_, ?_, ?_, ?_⟩
  · intro j hj
    dsimp only
    refine ⟨?_, ?_⟩
    · rw [convert32bppToRGB_stores]
      exact count_range_of_lt (by omega)
    · exact convert32bppToRGB_cell _ _ _ _ j (by omega)
  · intro j hj
    dsimp only
    refine ⟨?_, ?_⟩
    · rw [convert32bppToRGB_stores]
      exact count_range_of_le (by omega)
    · exact (convert_invariant staged frame (this.m_OutputWidth * this.m_OutputHeight).toNat).2.1 j
        (by omega)
  · intro before j hj
    dsimp only
    rw [convert32bppToRGB_cell _ _ _ _ j (by omega), convert32bppToRGB_cell _ _ _ _ j (by omega)]
  · intro frameSize
    rfl

/-- A run of C4: an output of 2 by 1 pixels, 6 bytes, every one of which is
stored to once and comes from the staging surface of `sampleD3D`; bytes 6 and 7
are not part of the frame and keep the value 77. -/
theorem RenderFrame_overwrites_output_witness :
    (3 : Nat) = toUInt (sampleRenderer.m_InputDepthWidth * sampleRenderer.m_InputDepthHeight)
    ∧ (6 : Int) = sampleRenderer.m_OutputWidth * sampleRenderer.m_OutputHeight * 3
    ∧ (sampleRenderer.RenderFrame intLt sampleD3D (some (Buf.fresh fun _ => 77)) 6 3
        (some threePoints) threeUvs (fun _ => 0) 0).toOption.isSome = true
    ∧ ((sampleRenderer.RenderFrame intLt sampleD3D (some (Buf.fresh fun _ => 77)) 6 3
          (some threePoints) threeUvs (fun _ => 0) 0).toOption.map fun res =>
            ((List.range 8).map res.outputFrameBuffer.cell, res.outputFrameBuffer.log))
        = some ([30, 20, 10, 3, 2, 1, 77, 77], [0, 1, 2, 3, 4, 5]) :=
  ⟨by decide, by decide,
   let ⟨_, _, h, _⟩ := RenderFrame_overwrites_output intLt sampleRenderer sampleD3D
      (Buf.fresh fun _ => 77) 6 3 threePoints threeUvs (fun _ => 0) 0
      (by decide) (by decide) (by simp [sampleD3D]) (by simp [sampleD3D])
      (by simp [sampleD3D])
   by rw [h]; rfl,
   by decide⟩

end Claims

/-! ## The colour upload -/

theorem toUInt_natCast {n : Nat} (h : n < 4294967296) : toUInt (n : Int) = n := by
  unfold toUInt; omega

theorem toSizeT_natCast {n : Nat} (h : n < 18446744073709551616) : toSizeT (n : Int) = n := by
  unfold toSizeT; omega

/-- C5: for `pointsCount > 0` pixels of a texture addressed through the
vertex count of the renderer, and a payload of byte length `pointsCount`, the
colour upload leaves in texture bytes `4i .. 4i+3` the values `(v, v, v, 255)`
with `v` the `i`-th payload byte, for each `i < pointsCount`. -/
theorem uploadColorTexture_intensity (pData : Buf BYTE) (pointsCount : Nat)
    (color_frame_data : Nat → BYTE) (hpos : 0 < pointsCount)
    (hfit : VertexBufferFits pointsCount) (i : Nat) (hi : i < pointsCount) :
    (uploadColorTexture pData pointsCount color_frame_data (pointsCount : Int)).cell (4 * i)
        = color_frame_data i
    ∧ (uploadColorTexture pData pointsCount color_frame_data (pointsCount : Int)).cell (4 * i + 1)
        = color_frame_data i
    ∧ (uploadColorTexture pData pointsCount color_frame_data (pointsCount : Int)).cell (4 * i + 2)
        = color_frame_data i
    ∧ (uploadColorTexture pData pointsCount color_frame_data (pointsCount : Int)).cell (4 * i + 3)
        = 255 := by
  unfold VertexBufferFits at hfit
  have hne : ((pointsCount : Nat) : Int) ≠ 0 := by omega
  have hconv : toUInt (pointsCount : Int) = pointsCount := toUInt_natCast (by omega)
  unfold uploadColorTexture
  rw [if_neg hne, if_pos hconv]
  exact (expandIntensity_invariant color_frame_data pData pointsCount (by omega)).1 i hi

/-- A run of C5: `pointsCount = 3` and the payload `[10, 20, 30]` give the
pixels `(10,10,10,255)`, `(20,20,20,255)`, `(30,30,30,255)`. -/
theorem uploadColorTexture_intensity_witness :
    0 < 3 ∧ VertexBufferFits 3 ∧ 1 < 3
    ∧ (uploadColorTexture (Buf.fresh fun _ => 0) 3 (fun i => [10, 20, 30].getD i 0)
        ((3 : Nat) : Int)).cell (4 * 1) = 20
    ∧ (List.range 12).map (uploadColorTexture (Buf.fresh fun _ => 0) 3
        (fun i => [10, 20, 30].getD i 0) 3).cell
      = [10, 10, 10, 255, 20, 20, 20, 255, 30, 30, 30, 255] :=
  ⟨by decide, by decide, by decide,
   (uploadColorTexture_intensity (Buf.fresh fun _ => 0) 3 (fun i => [10, 20, 30].getD i 0)
      (by decide) (by decide) 1 (by decide)).1.trans (by decide),
   by decide⟩

/-- C6: with a colour payload of byte length 0 the colour upload leaves 255 in
each of the texture bytes `0 .. 4 * pointsCount - 1`, the first `pointsCount`
pixels, and stores to no other offset. -/
theorem uploadColorTexture_empty (pData : Buf BYTE) (pointsCount : Nat)
    (color_frame_data : Nat → BYTE) :
    (∀ j, j < 4 * pointsCount →
        (uploadColorTexture pData pointsCount color_frame_data 0).cell j = 255)
    ∧ Buf.storesSince pData (uploadColorTexture pData pointsCount color_frame_data 0)
        = List.range (4 * pointsCount) := by
  have h := storeLoop_invariant (fun _ => 255) pData (4 * pointsCount)
  refine ⟨fun j hj => ?_, ?_⟩
  · simp only [uploadColorTexture, if_true, fillOpaqueWhite, memset]
    exact h.1 j hj
  · apply Buf.storesSince_append
    simp only [uploadColorTexture, if_true, fillOpaqueWhite, memset]
    exact h.2.2

/-- A run of C6: `pointsCount = 3` gives `(255,255,255,255)` for the three
pixels. -/
theorem uploadColorTexture_empty_witness :
    7 < 4 * 3
    ∧ (uploadColorTexture (Buf.fresh fun _ => 0) 3 (fun _ => 0) 0).cell 7 = 255
    ∧ (List.range 12).map (uploadColorTexture (Buf.fresh fun _ => 0) 3 (fun _ => 0) 0).cell
      = List.replicate 12 255 :=
  ⟨by decide,
   (uploadColorTexture_empty (Buf.fresh fun _ => 0) 3 (fun _ => 0)).1 7 (by decide),
   by decide⟩

/-- C7: a colour payload whose byte length `n`, an `int`, is neither 0 nor
`pointsCount` is copied as it is: texture byte `j` is payload byte `j` for
every `j < n`, the stores are the offsets `0 .. n - 1`, one each; and for any
`color_frame_size` the upload is the one rule selected by the tests on it. -/
theorem uploadColorTexture_verbatim (pData : Buf BYTE) (pointsCount : Nat)
    (color_frame_data : Nat → BYTE) (n : Nat) (hint : n < 2147483648) (h0 : n ≠ 0)
    (hpc : n ≠ pointsCount) :
    (∀ j, j < n →
        (uploadColorTexture pData pointsCount color_frame_data (n : Int)).cell j
          = color_frame_data j)
    ∧ Buf.storesSince pData (uploadColorTexture pData pointsCount color_frame_data (n : Int))
        = List.range n
    ∧ ∀ color_frame_size : Int,
        (color_frame_size = 0 →
          uploadColorTexture pData pointsCount color_frame_data color_frame_size
            = fillOpaqueWhite pData pointsCount)
        ∧ (color_frame_size ≠ 0 → toUInt color_frame_size = pointsCount →
          uploadColorTexture pData pointsCount color_frame_data color_frame_size
            = expandIntensity pData pointsCount color_frame_data)
        ∧ (color_frame_size ≠ 0 → toUInt color_frame_size ≠ pointsCount →
          uploadColorTexture pData pointsCount color_frame_data color_frame_size
            = copyRgba pData color_frame_data color_frame_size) := by
  have hne : ((n : Nat) : Int) ≠ 0 := by omega
  have hconv : toUInt (n : Int) ≠ pointsCount := by
    rw [toUInt_natCast (by omega)]; exact hpc
  have hsize : toSizeT (n : Int) = n := toSizeT_natCast (by omega)
  have hupload : uploadColorTexture pData pointsCount color_frame_data (n : Int)
      = forLoop n (fun j b => b.store j (color_frame_data j)) pData := by
    simp only [uploadColorTexture, if_neg hne, if_neg hconv, copyRgba, memcpy, hsize]
  have h := storeLoop_invariant color_frame_data pData n
  refine ⟨fun j hj => ?_, ?_, ?_⟩
  · rw [hupload]; exact h.1 j hj
  · rw [hupload]; exact Buf.storesSince_append _ _ _ h.2.2
  · intro size
    refine ⟨fun hz => ?_, fun hz hp => ?_, fun hz hp => ?_⟩
    · simp only [uploadColorTexture, if_pos hz]
    · simp only [uploadColorTexture, if_neg hz, if_pos hp]
    · simp only [uploadColorTexture, if_neg hz, if_neg hp]

/-- A run of C7: a payload of 8 bytes for 3 points. -/
theorem uploadColorTexture_verbatim_witness :
    8 < 2147483648 ∧ 8 ≠ 0 ∧ 8 ≠ 3
    ∧ (uploadColorTexture (Buf.fresh fun _ => 0) 3
        (fun i => [1, 2, 3, 4, 5, 6, 7, 8].getD i 0) ((8 : Nat) : Int)).cell 5 = 6
    ∧ (List.range 9).map (uploadColorTexture (Buf.fresh fun _ => 0) 3
        (fun i => [1, 2, 3, 4, 5, 6, 7, 8].getD i 0) 8).cell
      = [1, 2, 3, 4, 5, 6, 7, 8, 0] :=
  ⟨by decide, by decide, by decide,
   ((uploadColorTexture_verbatim (Buf.fresh fun _ => 0) 3
      (fun i => [1, 2, 3, 4, 5, 6, 7, 8].getD i 0) 8 (by decide) (by decide) (by decide)).1 5
      (by decide)).trans (by decide),
   by decide⟩

/-! ## The assertion of line 362 -/

section Precondition

variable {F : Type} (flt : F → F → Bool)

end Precondition

section Teardown

variable {F : Type}

theorem PointCloudRenderer.releaseIfNonNull_nonNull (res : Resource) (r : PointCloudRenderer F) :
    (PointCloudRenderer.releaseIfNonNull res r).nonNull = r.nonNull := by
  unfold PointCloudRenderer.releaseIfNonNull
  split <;> rfl

/-- The function `UnInit` assigns no pointer member. -/
theorem PointCloudRenderer.UnInit_nonNull (r : PointCloudRenderer F) :
    r.UnInit.nonNull = r.nonNull := by
  simp only [PointCloudRenderer.UnInit, PointCloudRenderer.releaseIfNonNull_nonNull]

theorem PointCloudRenderer.releaseIfNonNull_released (res : Resource) (r : PointCloudRenderer F)
    (h : r.nonNull res = true) :
    (PointCloudRenderer.releaseIfNonNull res r).released = r.released ++ [res] := by
  simp [PointCloudRenderer.releaseIfNonNull, h]

/-- On an object all of whose pointer members are non-null, `UnInit` makes the
seventeen release calls of its seventeen lines. -/
theorem PointCloudRenderer.UnInit_released (r : PointCloudRenderer F)
    (h : ∀ res, r.nonNull res = true) :
    r.UnInit.released = r.released ++ Resource.unInitOrder := by
  simp [PointCloudRenderer.UnInit, PointCloudRenderer.releaseIfNonNull_released,
    PointCloudRenderer.releaseIfNonNull_nonNull, h, Resource.unInitOrder]

theorem PointCloudRenderer.create_eq_some (succeeds : Resource → Bool) (res : Resource)
    (r r' : PointCloudRenderer F) (h : PointCloudRenderer.create succeeds res r = some r') :
    r'.nonNull res = true ∧ (∀ x, r.nonNull x = true → r'.nonNull x = true) := by
  unfold PointCloudRenderer.create at h
  split at h
  · cases h
    refine ⟨by simp, fun x hx => ?_⟩
    simp [hx]
  · cases h

/-- A successful `Init` is a chain of sixteen successful creation calls, each
on the object left by the one before, followed by the allocation of the
background colour. -/
theorem PointCloudRenderer.Init_inv (succeeds : Resource → Bool)
    (this r : PointCloudRenderer F) (dw dh tw th ow oh : Int) (clip : F)
    (h : PointCloudRenderer.Init succeeds this dw dh tw th ow oh clip = some r) :
    ∃ r0 r1 r2 r3 r4 r5 r6 r7 r8 r9 r10 r11 r12 r13 r14 r15 r16 : PointCloudRenderer F,
      r0 = { this with
              m_InputDepthWidth := dw
              m_InputDepthHeight := dh
              m_InputTexWidth := tw
              m_InputTexHeight := th
              m_OutputWidth := ow
              m_OutputHeight := oh
              m_ClippingDistanceZ := clip }
      ∧ PointCloudRenderer.create succeeds .device_ptr r0 = some r1
      ∧ PointCloudRenderer.create succeeds .device_context_ptr r1 = some r2
      ∧ PointCloudRenderer.create succeeds .target_ptr r2 = some r3
      ∧ PointCloudRenderer.create succeeds .depth_stencil_ptr r3 = some r4
      ∧ PointCloudRenderer.create succeeds .depth_stencil_state_ptr r4 = some r5
      ∧ PointCloudRenderer.create succeeds .depth_stencil_view_ptr r5 = some r6
      ∧ PointCloudRenderer.create succeeds .staging_ptr r6 = some r7
      ∧ PointCloudRenderer.create succeeds .render_target_view_ptr r7 = some r8
      ∧ PointCloudRenderer.create succeeds .vertex_shader_ptr r8 = some r9
      ∧ PointCloudRenderer.create succeeds .pixel_shader_ptr r9 = some r10
      ∧ PointCloudRenderer.create succeeds .input_layout_ptr r10 = some r11
      ∧ PointCloudRenderer.create succeeds .vertex_buffer_ptr r11 = some r12
      ∧ PointCloudRenderer.create succeeds .constant_buffer_ptr r12 = some r13
      ∧ PointCloudRenderer.create succeeds .color_tex_ptr r13 = some r14
      ∧ PointCloudRenderer.create succeeds .sampler_state_ptr r14 = some r15
      ∧ PointCloudRenderer.create succeeds .tex_view_ptr r15 = some r16
      ∧ PointCloudRenderer.newBackgroundColor r16 = r := by
  unfold PointCloudRenderer.Init at h
  dsimp only at h
  split at h
  · cases h
  rename_i r1 h1
  split at h
  · cases h
  rename_i r2 h2
  split at h
  · cases h
  rename_i r3 h3
  split at h
  · cases h
  rename_i r4 h4
  split at h
  · cases h
  rename_i r5 h5
  split at h
  · cases h
  rename_i r6 h6
  split at h
  · cases h
  rename_i r7 h7
  split at h
  · cases h
  rename_i r8 h8
  split at h
  · cases h
  rename_i r9 h9
  split at h
  · cases h
  rename_i r10 h10
  split at h
  · cases h
  rename_i r11 h11
  split at h
  · cases h
  rename_i r12 h12
  split at h
  · cases h
  rename_i r13 h13
  split at h
  · cases h
  rename_i r14 h14
  split at h
  · cases h
  rename_i r15 h15
  split at h
  · cases h
  rename_i r16 h16
  exact ⟨_, r1, r2, r3, r4, r5, r6, r7, r8, r9, r10, r11, r12, r13, r14, r15, r16, rfl,
    h1, h2, h3, h4, h5, h6, h7, h8, h9, h10, h11, h12, h13, h14, h15, h16, Option.some.inj h⟩

/-- After a successful `Init` every pointer member is non-null. -/
theorem PointCloudRenderer.Init_nonNull (succeeds : Resource → Bool)
    (this r : PointCloudRenderer F) (dw dh tw th ow oh : Int) (clip : F)
    (h : PointCloudRenderer.Init succeeds this dw dh tw th ow oh clip = some r) :
    ∀ res, r.nonNull res = true := by
  obtain ⟨r0, r1, r2, r3, r4, r5, r6, r7, r8, r9, r10, r11, r12, r13, r14, r15, r16, _,
    h1, h2, h3, h4, h5, h6, h7, h8, h9, h10, h11, h12, h13, h14, h15, h16, hr⟩ :=
    PointCloudRenderer.Init_inv succeeds this r dw dh tw th ow oh clip h
  have c1 := PointCloudRenderer.create_eq_some _ _ _ _ h1
  have c2 := PointCloudRenderer.create_eq_some _ _ _ _ h2
  have c3 := PointCloudRenderer.create_eq_some _ _ _ _ h3
  have c4 := PointCloudRenderer.create_eq_some _ _ _ _ h4
  have c5 := PointCloudRenderer.create_eq_some _ _ _ _ h5
  have c6 := PointCloudRenderer.create_eq_some _ _ _ _ h6
  have c7 := PointCloudRenderer.create_eq_some _ _ _ _ h7
  have c8 := PointCloudRenderer.create_eq_some _ _ _ _ h8
  have c9 := PointCloudRenderer.create_eq_some _ _ _ _ h9
  have c10 := PointCloudRenderer.create_eq_some _ _ _ _ h10
  have c11 := PointCloudRenderer.create_eq_some _ _ _ _ h11
  have c12 := PointCloudRenderer.create_eq_some _ _ _ _ h12
  have c13 := PointCloudRenderer.create_eq_some _ _ _ _ h13
  have c14 := PointCloudRenderer.create_eq_some _ _ _ _ h14
  have c15 := PointCloudRenderer.create_eq_some _ _ _ _ h15
  have c16 := PointCloudRenderer.create_eq_some _ _ _ _ h16
  subst hr
  intro res
  have hbg : ∀ x, r16.nonNull x = true → (PointCloudRenderer.newBackgroundColor r16).nonNull x = true := by
    intro x hx; simp [PointCloudRenderer.newBackgroundColor, hx]
  cases res
  case m_BackgroundColor => simp [PointCloudRenderer.newBackgroundColor]
  all_goals
    apply hbg
    first
      | exact c16.1
      | exact c16.2 _ c15.1
      | exact c16.2 _ (c15.2 _ c14.1)
      | exact c16.2 _ (c15.2 _ (c14.2 _ c13.1))
      | exact c16.2 _ (c15.2 _ (c14.2 _ (c13.2 _ c12.1)))
      | exact c16.2 _ (c15.2 _ (c14.2 _ (c13.2 _ (c12.2 _ c11.1))))
      | exact c16.2 _ (c15.2 _ (c14.2 _ (c13.2 _ (c12.2 _ (c11.2 _ c10.1)))))
      | exact c16.2 _ (c15.2 _ (c14.2 _ (c13.2 _ (c12.2 _ (c11.2 _ (c10.2 _ c9.1))))))
      | exact c16.2 _ (c15.2 _ (c14.2 _ (c13.2 _ (c12.2 _ (c11.2 _ (c10.2 _ (c9.2 _ c8.1)))))))
      | exact c16.2 _ (c15.2 _ (c14.2 _ (c13.2 _ (c12.2 _ (c11.2 _ (c10.2 _ (c9.2 _ (c8.2 _ c7.1))))))))
      | exact c16.2 _ (c15.2 _ (c14.2 _ (c13.2 _ (c12.2 _ (c11.2 _ (c10.2 _ (c9.2 _ (c8.2 _ (c7.2 _ c6.1)))))))))
      | exact c16.2 _ (c15.2 _ (c14.2 _ (c13.2 _ (c12.2 _ (c11.2 _ (c10.2 _ (c9.2 _ (c8.2 _ (c7.2 _ (c6.2 _ c5.1))))))))))
      | exact c16.2 _ (c15.2 _ (c14.2 _ (c13.2 _ (c12.2 _ (c11.2 _ (c10.2 _ (c9.2 _ (c8.2 _ (c7.2 _ (c6.2 _ (c5.2 _ c4.1)))))))))))
      | exact c16.2 _ (c15.2 _ (c14.2 _ (c13.2 _ (c12.2 _ (c11.2 _ (c10.2 _ (c9.2 _ (c8.2 _ (c7.2 _ (c6.2 _ (c5.2 _ (c4.2 _ c3.1))))))))))))
      | exact c16.2 _ (c15.2 _ (c14.2 _ (c13.2 _ (c12.2 _ (c11.2 _ (c10.2 _ (c9.2 _ (c8.2 _ (c7.2 _ (c6.2 _ (c5.2 _ (c4.2 _ (c3.2 _ c2.1)))))))))))))
      | exact c16.2 _ (c15.2 _ (c14.2 _ (c13.2 _ (c12.2 _ (c11.2 _ (c10.2 _ (c9.2 _ (c8.2 _ (c7.2 _ (c6.2 _ (c5.2 _ (c4.2 _ (c3.2 _ (c2.2 _ c1.1))))))))))))))

/-- After a successful `Init`, two calls of `UnInit` in succession make every
release call of `UnInit` twice. -/
theorem PointCloudRenderer.UnInit_UnInit_released (succeeds : Resource → Bool)
    (this r : PointCloudRenderer F) (dw dh tw th ow oh : Int) (clip : F)
    (h : PointCloudRenderer.Init succeeds this dw dh tw th ow oh clip = some r) :
    r.UnInit.UnInit.released = r.released ++ Resource.unInitOrder ++ Resource.unInitOrder := by
  have hall := PointCloudRenderer.Init_nonNull succeeds this r dw dh tw th ow oh clip h
  rw [PointCloudRenderer.UnInit_released r.UnInit
      (by rw [PointCloudRenderer.UnInit_nonNull]; exact hall),
    PointCloudRenderer.UnInit_released r hall]

end Teardown

/-- C9, the code at a failing input: a renderer initialised for 1 by 1 depth
samples and a texture of 2 by 2, 16 bytes, is given one point and an empty
colour payload. The upload stores to offsets 0 to 3 only; bytes 4 to 15 of the
texture hold what `Map` handed over, here 7. -/
theorem RenderFrame_texture_partly_stored :
    ((PointCloudRenderer.Init allSucceed nullRenderer 1 1 2 2 1 1 13).bind fun r =>
        (r.RenderFrame intLt sampleD3D (some (Buf.fresh fun _ => 0)) 3 1 (some threePoints)
          threeUvs (fun _ => 0) 0).toOption.map fun res =>
            (r.m_InputTexWidth * r.m_InputTexHeight * 4,
              (List.range 16).map res.colorTex.cell, res.colorTex.log))
      = some (16, [255, 255, 255, 255, 7, 7, 7, 7, 7, 7, 7, 7, 7, 7, 7, 7], [0, 1, 2, 3]) := by
  decide

/-- C10, the code at a failing input: after a successful `Init` one call of
`UnInit` releases each of the seventeen resources once, and a second call
releases each of them a second time; the pointer members are non-null before,
between and after the calls. -/
theorem UnInit_twice_releases_twice :
    ((PointCloudRenderer.Init allSucceed nullRenderer 2 2 4 4 100 100 13).map fun r =>
        [r.released, r.UnInit.released, r.UnInit.UnInit.released])
      = some [[], Resource.unInitOrder, Resource.unInitOrder ++ Resource.unInitOrder]
    ∧ ((PointCloudRenderer.Init allSucceed nullRenderer 2 2 4 4 100 100 13).map fun r =>
        [Resource.all.map r.nonNull, Resource.all.map r.UnInit.nonNull,
          Resource.all.map r.UnInit.UnInit.nonNull])
      = some (List.replicate 3 (List.replicate 17 true))
    ∧ Resource.all.map (fun res => (Resource.unInitOrder ++ Resource.unInitOrder).count res)
      = List.replicate 17 2 := by
  decide

/-! ## The order of acquisition and the order of release -/

section Order

variable {F : Type}

theorem PointCloudRenderer.create_records (succeeds : Resource → Bool) (res : Resource)
    (r r' : PointCloudRenderer F) (h : PointCloudRenderer.create succeeds res r = some r') :
    r'.acquired = r.acquired ++ [res] ∧ r'.released = r.released := by
  unfold PointCloudRenderer.create at h
  split at h
  · cases h
    exact ⟨rfl, rfl⟩
  · cases h

/-- A successful `Init` acquires the seventeen resources in the order of
`Resource.all` and makes no release call. -/
theorem PointCloudRenderer.Init_acquired (succeeds : Resource → Bool)
    (this r : PointCloudRenderer F) (dw dh tw th ow oh : Int) (clip : F)
    (h : PointCloudRenderer.Init succeeds this dw dh tw th ow oh clip = some r) :
    r.acquired = this.acquired ++ Resource.all ∧ r.released = this.released := by
  obtain ⟨r0, r1, r2, r3, r4, r5, r6, r7, r8, r9, r10, r11, r12, r13, r14, r15, r16, e0,
    h1, h2, h3, h4, h5, h6, h7, h8, h9, h10, h11, h12, h13, h14, h15, h16, hr⟩ :=
    PointCloudRenderer.Init_inv succeeds this r dw dh tw th ow oh clip h
  subst e0
  have c1 := PointCloudRenderer.create_records _ _ _ _ h1
  have c2 := PointCloudRenderer.create_records _ _ _ _ h2
  have c3 := PointCloudRenderer.create_records _ _ _ _ h3
  have c4 := PointCloudRenderer.create_records _ _ _ _ h4
  have c5 := PointCloudRenderer.create_records _ _ _ _ h5
  have c6 := PointCloudRenderer.create_records _ _ _ _ h6
  have c7 := PointCloudRenderer.create_records _ _ _ _ h7
  have c8 := PointCloudRenderer.create_records _ _ _ _ h8
  have c9 := PointCloudRenderer.create_records _ _ _ _ h9
  have c10 := PointCloudRenderer.create_records _ _ _ _ h10
  have c11 := PointCloudRenderer.create_records _ _ _ _ h11
  have c12 := PointCloudRenderer.create_records _ _ _ _ h12
  have c13 := PointCloudRenderer.create_records _ _ _ _ h13
  have c14 := PointCloudRenderer.create_records _ _ _ _ h14
  have c15 := PointCloudRenderer.create_records _ _ _ _ h15
  have c16 := PointCloudRenderer.create_records _ _ _ _ h16
  subst hr
  refine ⟨?_, ?_⟩
  · simp only [PointCloudRenderer.newBackgroundColor, c16.1, c15.1, c14.1, c13.1, c12.1, c11.1,
      c10.1, c9.1, c8.1, c7.1, c6.1, c5.1, c4.1, c3.1, c2.1, c1.1, Resource.all]
    simp
  · simp only [PointCloudRenderer.newBackgroundColor, c16.2, c15.2, c14.2, c13.2, c12.2, c11.2,
      c10.2, c9.2, c8.2, c7.2, c6.2, c5.2, c4.2, c3.2, c2.2, c1.2]

theorem Resource.unInitOrder_count (res : Resource) : Resource.unInitOrder.count res = 1 := by
  cases res <;> rfl

theorem Resource.unInitOrder_perm : Resource.unInitOrder.Perm Resource.all := by
  decide

end Order

/-- C11 as stated fails: after a successful `Init` the release calls of
`UnInit` are not the acquisitions of `Init` read backwards. The third release is
the depth-stencil view, while the third resource from the end of the
acquisitions is the sampler state. -/
theorem UnInit_order_not_reverse :
    ¬ ((PointCloudRenderer.Init allSucceed nullRenderer 2 2 4 4 100 100 13).map
          (fun r => r.UnInit.released)
        = (PointCloudRenderer.Init allSucceed nullRenderer 2 2 4 4 100 100 13).map
          (fun r => r.acquired.reverse))
    ∧ ((PointCloudRenderer.Init allSucceed nullRenderer 2 2 4 4 100 100 13).map
          fun r => [r.acquired, r.UnInit.released])
        = some [Resource.all, Resource.unInitOrder]
    ∧ ((PointCloudRenderer.Init allSucceed nullRenderer 2 2 4 4 100 100 13).map
          fun r => [r.UnInit.released.get? 2, r.acquired.reverse.get? 2])
        = some [some Resource.depth_stencil_view_ptr, some Resource.sampler_state_ptr] := by
  decide

section Claims

variable {F : Type}

/-- C11, amended: after a successful `Init`, which acquires the seventeen
resources in the order of `Resource.all`, one call of `UnInit` releases them in
the order of `Resource.unInitOrder`, the order of its lines. That order is a
rearrangement of the order of acquisition, and each resource acquired by `Init`
appears in it exactly once. -/
theorem UnInit_releases_each_once (succeeds : Resource → Bool)
    (this r : PointCloudRenderer F) (dw dh tw th ow oh : Int) (clip : F)
    (h : PointCloudRenderer.Init succeeds this dw dh tw th ow oh clip = some r) :
    r.acquired = this.acquired ++ Resource.all
    ∧ r.UnInit.released = this.released ++ Resource.unInitOrder
    ∧ Resource.unInitOrder.Perm Resource.all
    ∧ (∀ res, res ∈ Resource.all)
    ∧ ∀ res, Resource.unInitOrder.count res = 1 := by
  have hrec := PointCloudRenderer.Init_acquired succeeds this r dw dh tw th ow oh clip h
  have hall := PointCloudRenderer.Init_nonNull succeeds this r dw dh tw th ow oh clip h
  refine ⟨hrec.1, ?_, Resource.unInitOrder_perm, ?_, Resource.unInitOrder_count⟩
  · rw [PointCloudRenderer.UnInit_released r hall, hrec.2]
  · intro res
    cases res <;> decide

end Claims

/-- A run of the amended C11: `Init` with every creation call successful on an
object with empty records, then `UnInit`. -/
theorem UnInit_releases_each_once_witness :
    (PointCloudRenderer.Init allSucceed nullRenderer 2 2 4 4 100 100 13).isSome = true
    ∧ ((PointCloudRenderer.Init allSucceed nullRenderer 2 2 4 4 100 100 13).map
          fun r => r.UnInit.released)
        = some Resource.unInitOrder := by
  refine ⟨by decide, ?_⟩
  cases h : PointCloudRenderer.Init allSucceed nullRenderer 2 2 4 4 100 100 13 with
  | none =>
    have hsome : (PointCloudRenderer.Init allSucceed nullRenderer 2 2 4 4 100 100 13).isSome
        = true := by decide
    rw [h] at hsome
    cases hsome
  | some r =>
    have hthm := UnInit_releases_each_once allSucceed nullRenderer r 2 2 4 4 100 100 13 h
    simpa [nullRenderer] using hthm.2.1

/-! ## The offsets stored to by the colour upload -/

/-- The stores of the colour upload for the three lengths a caller is to
pass: `4 * pointsCount` offsets for an empty payload and for a payload of
`pointsCount` bytes, and as many offsets as payload bytes otherwise. -/
theorem uploadColorTexture_stores (pData : Buf BYTE) (pointsCount : Nat)
    (color_frame_data : Nat → BYTE) (hfit : VertexBufferFits pointsCount) :
    Buf.storesSince pData (uploadColorTexture pData pointsCount color_frame_data 0)
      = List.range (4 * pointsCount)
    ∧ Buf.storesSince pData
        (uploadColorTexture pData pointsCount color_frame_data (pointsCount : Int))
      = List.range (4 * pointsCount)
    ∧ ∀ n : Nat, n < 2147483648 → n ≠ 0 → n ≠ pointsCount →
        Buf.storesSince pData (uploadColorTexture pData pointsCount color_frame_data (n : Int))
          = List.range n := by
  unfold VertexBufferFits at hfit
  refine ⟨?_, ?_, ?_⟩
  · apply Buf.storesSince_append
    simp only [uploadColorTexture, if_true, fillOpaqueWhite, memset]
    exact (storeLoop_invariant (fun _ => 255) pData (4 * pointsCount)).2.2
  · by_cases hz : pointsCount = 0
    · subst hz
      apply Buf.storesSince_append
      simp [uploadColorTexture, fillOpaqueWhite, memset, forLoop]
    · have hne : ((pointsCount : Nat) : Int) ≠ 0 := by omega
      have hconv : toUInt (pointsCount : Int) = pointsCount := toUInt_natCast (by omega)
      apply Buf.storesSince_append
      simp only [uploadColorTexture, if_neg hne, if_pos hconv, expandIntensity]
      exact (expandIntensity_invariant color_frame_data pData pointsCount (by omega)).2.2
  · intro n hint h0 hpc
    have hne : ((n : Nat) : Int) ≠ 0 := by omega
    have hconv : toUInt (n : Int) ≠ pointsCount := by
      rw [toUInt_natCast (by omega)]; exact hpc
    have hsize : toSizeT (n : Int) = n := toSizeT_natCast (by omega)
    apply Buf.storesSince_append
    simp only [uploadColorTexture, if_neg hne, if_neg hconv, copyRgba, memcpy, hsize]
    exact (storeLoop_invariant color_frame_data pData n).2.2

/-- C12, the code at a failing input: a renderer initialised for 2 by 2 depth
samples and a texture of 1 by 1, 4 bytes, is given four points and an empty
colour payload. The call passes line 362 and the upload stores to the offsets
0 to 15, twelve of them at or beyond the byte size of the texture. The same
happens with a payload of four bytes, which is both `pointsCount` bytes and the
byte size of the texture. -/
theorem RenderFrame_upload_past_texture :
    ((PointCloudRenderer.Init allSucceed nullRenderer 2 2 1 1 1 1 13).bind fun r =>
        (r.RenderFrame intLt sampleD3D (some (Buf.fresh fun _ => 0)) 3 4 (some threePoints)
          threeUvs (fun _ => 0) 0).toOption.map fun res =>
            (r.m_InputTexWidth * r.m_InputTexHeight * 4, res.colorTex.log))
      = some (4, List.range 16)
    ∧ ((PointCloudRenderer.Init allSucceed nullRenderer 2 2 1 1 1 1 13).bind fun r =>
        (r.RenderFrame intLt sampleD3D (some (Buf.fresh fun _ => 0)) 3 4 (some threePoints)
          threeUvs (fun i => [10, 20, 30, 40].getD i 0) 4).toOption.map fun res =>
            (r.m_InputTexWidth * r.m_InputTexHeight * 4, res.colorTex.log))
      = some (4, List.range 16)
    ∧ ((List.range 16).filter fun j => decide (4 ≤ j)).length = 12 := by
  decide
